import Mathlib

/-
Verification of the natural-language specification of the abstract
query-interface layer of the sequelize repository against a shallow
embedding of `packages/core/src/dialects/abstract/query-interface-typescript.ts`.

The embedding translates the methods of `AbstractQueryInterfaceTypeScript`
into pure Lean functions.  Asynchronous effects (queries sent to the
backend, connection leases, deprecation warnings) are made explicit:
backend behaviour is a parameter of each function, and side effects are
returned as explicit event or warning lists.  JavaScript truthiness tests
that appear in the source are modelled exactly (an empty string is falsy,
`undefined` is falsy, any object is truthy).
-/

set_option autoImplicit false

namespace Sequelize

/-! ### dropSchema (source lines 58-72)

`dropSchema` asks the dialect query generator for the drop statement.
The generator (external collaborator, not part of the excerpt) may return
either a plain SQL string or a query together with bind parameters; the
embedding takes the generator output as an argument.  The method then
calls `sequelize.queryRaw` once; the executed statement (SQL text plus
the options it was executed with) is the observable outcome modelled here. -/

/-- Output of the dialect generator for a drop-schema statement:
either a plain SQL string, or a `QueryWithBindParams` record. -/
inductive DropSchemaQuery where
  | plainSql (sql : String)
  | withBindParams (query : String) (bind : List String)
deriving DecidableEq

/-- The fields of the `QueryRawOptions` value passed to `dropSchema` that
this layer can read or write: the `bind` parameter list (absent when the
caller did not set it) and an opaque residue `extra` standing for every
other field, which the method copies through untouched. -/
structure DropQueryRawOptions where
  bind : Option (List String) := none
  extra : Nat := 0
deriving DecidableEq

/-- The single statement handed to `sequelize.queryRaw` by `dropSchema`:
the SQL text and the options it is executed with. -/
structure ExecutedStatement where
  sql : String
  options : DropQueryRawOptions
deriving DecidableEq

/-- Shallow embedding of `dropSchema` (source lines 58-72).  The generator
result is the `dropSchemaQuery` argument; the function returns the
statement that is executed.  A plain string is executed with the caller
options unchanged; a query-with-bind pair is executed with the bind list
spread into a copy of the caller options. -/
def dropSchema (dropSchemaQuery : DropSchemaQuery) (options : DropQueryRawOptions) :
    ExecutedStatement :=
  match dropSchemaQuery with
  | .plainSql s => { sql := s, options := options }
  | .withBindParams q b => { sql := q, options := { options with bind := some b } }

/-- Modelled from the spec: the driver substitutes bind parameters into
the statement at execution time, so the bind parameters that reach the
driver are the ones in the options, an absent `bind` field meaning the
empty list.  (Driver execution is outside the excerpt.) -/
def effectiveBind (o : DropQueryRawOptions) : List String :=
  o.bind.getD []

/-- Modelled from the spec: two executed statements are equivalent when
the driver receives the same SQL text, the same effective bind parameters
and the same remaining options. -/
def execEquiv (a b : ExecutedStatement) : Prop :=
  a.sql = b.sql ∧ a.options.extra = b.options.extra ∧
    effectiveBind a.options = effectiveBind b.options

/-! ### showAllSchemas (source lines 84-95)

The raw rows returned by the backend for the list-schemas query are,
per the source comment and the spec, either mappings carrying a
`schema_name` column or bare values.  The source flattens them with
`schemaNames.flatMap(value => (value.schema_name ? value.schema_name : value))`:
a truthy `schema_name` field is returned, otherwise the row itself is
returned unchanged.  On these row shapes the callback never returns an
array, so `flatMap` coincides with `map`. -/

/-- A raw result row of the list-schemas query. -/
inductive SchemaRow where
  /-- a mapping with a `schema_name` key holding the given string -/
  | obj (schemaName : String)
  /-- a bare value row -/
  | bare (value : String)
deriving DecidableEq

/-- An element of the value `showAllSchemas` resolves with: either a
string, or (when the truthiness test of the source selects the row itself and
the row is not a string) the raw row. -/
inductive SchemaOut where
  | str (s : String)
  | row (r : SchemaRow)
deriving DecidableEq

/-- The flatMap callback of source line 94.  `value.schema_name` on a
mapping is its `schema_name` field, truthy exactly when non-empty;
on a bare value it is `undefined`, hence falsy, and the row itself (the
bare string) is returned. -/
def schemaRowFlatten : SchemaRow → SchemaOut
  | .obj s => if s = "" then .row (.obj s) else .str s
  | .bare v => .str v

/-- Shallow embedding of `showAllSchemas` (source lines 84-95), applied to
the raw rows the backend returned for the generated listing query. -/
def showAllSchemas (schemaNames : List SchemaRow) : List SchemaOut :=
  schemaNames.map schemaRowFlatten

/-! ### Theorems for dropSchema and showAllSchemas -/

/-- C5: `dropSchema` handles both generator return forms uniformly: a plain
SQL string is executed with the caller options unchanged; a (query, bind)
pair is executed with the bind parameters merged into the options; and with
empty bind parameters (none carried by the options, an empty list carried by
the pair) the two forms produce equivalent executed statements. -/
theorem dropSchema_forms_uniform (s q : String) (b : List String)
    (o : DropQueryRawOptions) :
    dropSchema (DropSchemaQuery.plainSql s) o = { sql := s, options := o } ∧
    dropSchema (DropSchemaQuery.withBindParams q b) o =
      { sql := q, options := { o with bind := some b } } ∧
    (effectiveBind o = [] →
      execEquiv (dropSchema (DropSchemaQuery.plainSql s) o)
        (dropSchema (DropSchemaQuery.withBindParams s []) o)) := by
  refine ⟨rfl, rfl, fun hb => ⟨rfl, rfl, ?_⟩⟩
  simp only [dropSchema, effectiveBind, Option.getD_some]
  exact hb

/-- Witness for C5 at concrete inputs: plain form and empty-bind pair form
are equivalent for the default options. -/
theorem dropSchema_forms_uniform_witness :
    effectiveBind ({} : DropQueryRawOptions) = [] ∧
    execEquiv (dropSchema (DropSchemaQuery.plainSql "DROP SCHEMA a") {})
      (dropSchema (DropSchemaQuery.withBindParams "DROP SCHEMA a" []) {}) :=
  ⟨rfl, (dropSchema_forms_uniform "DROP SCHEMA a" "DROP SCHEMA a" [] {}).2.2 rfl⟩

/-- C6 as stated is false: a mapping row whose `schema_name` value is the
empty string is falsy in the truthiness test of the source, so the row itself —
not the value of the key — is contributed. -/
theorem showAllSchemas_cex :
    showAllSchemas [SchemaRow.obj ""] = [SchemaOut.row (SchemaRow.obj "")] ∧
    SchemaOut.row (SchemaRow.obj "") ≠ SchemaOut.str "" := by
  constructor
  · rfl
  · decide

/-- C6 amended: `showAllSchemas` maps each row independently; a mapping row
with a non-empty (truthy) `schema_name` contributes that value as a string,
a mapping row with an empty `schema_name` contributes the row itself, and a
bare-value row contributes its value unchanged; the two concrete spec
examples hold. -/
theorem showAllSchemas_amended :
    (∀ (rows : List SchemaRow) (i : Nat),
      (showAllSchemas rows)[i]? = rows[i]?.map schemaRowFlatten) ∧
    (∀ s : String, s ≠ "" → schemaRowFlatten (SchemaRow.obj s) = SchemaOut.str s) ∧
    (∀ v : String, schemaRowFlatten (SchemaRow.bare v) = SchemaOut.str v) ∧
    showAllSchemas [SchemaRow.obj "public", SchemaRow.obj "app"] =
      [SchemaOut.str "public", SchemaOut.str "app"] ∧
    showAllSchemas [SchemaRow.bare "public", SchemaRow.bare "app"] =
      [SchemaOut.str "public", SchemaOut.str "app"] := by
  refine ⟨fun rows i => ?_, fun s hs => ?_, fun v => rfl, by decide, rfl⟩
  · simp [showAllSchemas]
  · simp [schemaRowFlatten, hs]

/-- Witness for C6 amended at a concrete non-empty schema name. -/
theorem showAllSchemas_amended_witness :
    schemaRowFlatten (SchemaRow.obj "public") = SchemaOut.str "public" :=
  showAllSchemas_amended.2.1 "public" (by decide)

/-! ### describeTable (source lines 121-163)

`describeTable` first resolves the table reference from the argument, with
deprecated legacy parameter paths (a string second argument, or `schema` /
`schemaDelimiter` fields on the options); it then runs the generated
DESCRIBE query and normalizes the two shapes of the "table does not exist"
condition to one error.  The table-detail extraction and SQL generation are
done by the external query generator, so the embedding takes the extracted
`TableRef` as input and abstracts the query round trip as a function from
the resolved table reference to the backend response. -/

/-- A JavaScript error value as distinguished by the source: a plain
`Error` (identified by its message) or a sequelize `BaseError` carrying an
optional `cause.code`. -/
inductive JsError where
  | plainError (msg : String)
  | baseError (causeCode : Option String)
deriving DecidableEq

/-- Table reference as produced by `extractTableDetails`: name plus
optional schema and schema delimiter. -/
structure TableRef where
  tableName : String
  schema : Option String := none
  delimiter : Option String := none
deriving DecidableEq

/-- JavaScript truthiness of a `string | undefined` value: truthy exactly
when present and non-empty. -/
def optionTruthy : Option String → Bool
  | some s => s != ""
  | none => false

/-- The deprecation warnings this layer can emit. -/
inductive DeprecationWarning where
  | schemaParameter
  | schemaDelimiterParameter
deriving DecidableEq

/-- Modelled from the spec: `noSchemaParameter` (utils/deprecations, not
under src/) emits a non-fatal deprecation warning and returns; modelled as
the warning value it emits. -/
def noSchemaParameter : DeprecationWarning := .schemaParameter

/-- Modelled from the spec: `noSchemaDelimiterParameter`
(utils/deprecations, not under src/) emits a non-fatal deprecation warning
and returns; modelled as the warning value it emits. -/
def noSchemaDelimiterParameter : DeprecationWarning := .schemaDelimiterParameter

/-- The second argument of `describeTable`: absent, a legacy schema string,
or an options object whose `schema` and `schemaDelimiter` fields may be
present. -/
inductive DescribeTableOptionsArg where
  | noOpts
  | legacyString (schema : String)
  | opts (schema : Option String) (schemaDelimiter : Option String)
deriving DecidableEq

/-- Source lines 124-139: resolve the deprecated parameter paths, returning
the updated table reference and the deprecation warnings emitted.  A string
argument always overrides the schema; an options object overrides schema
and delimiter only when the respective field is truthy. -/
def resolveDescribeTableArgs (table : TableRef) :
    DescribeTableOptionsArg → TableRef × List DeprecationWarning
  | .noOpts => (table, [])
  | .legacyString s => ({ table with schema := some s }, [noSchemaParameter])
  | .opts sch del =>
    let t1 := if optionTruthy sch then { table with schema := sch } else table
    let w1 := if optionTruthy sch then [noSchemaParameter] else []
    let t2 := if optionTruthy del then { t1 with delimiter := del } else t1
    let w2 := if optionTruthy del then [noSchemaDelimiterParameter] else []
    (t2, w1 ++ w2)

/-- A column descriptor of the DESCRIBE result. -/
structure ColumnDesc where
  colType : String
  allowNull : Bool
  defaultValue : Option String
deriving DecidableEq

/-- The DESCRIBE result: a mapping from column names to descriptors,
modelled as an association list.  `lodash.isEmpty` on it is emptiness. -/
def ColumnsDescription := List (String × ColumnDesc)

instance : DecidableEq ColumnsDescription :=
  inferInstanceAs (DecidableEq (List (String × ColumnDesc)))

/-- The message of the error built at source lines 152 and 158; the schema
clause is included only when `table.schema` is truthy. -/
def noDescriptionMessage (table : TableRef) : String :=
  "No description found for table " ++ table.tableName ++
    (if optionTruthy table.schema then " in schema " ++ table.schema.getD "" else "") ++
    ". Check the table name and schema; remember, they _are_ case sensitive."

/-- Source line 157: the caught error is converted exactly when it is a
`BaseError` whose `cause.code` is `ER_NO_SUCH_TABLE`.  The plain `Error`
thrown at line 152 is not a `BaseError`, so it is re-thrown unchanged. -/
def isNoSuchTableError : JsError → Bool
  | .baseError (some c) => c == "ER_NO_SUCH_TABLE"
  | _ => false

/-- Source lines 144-162 applied to a resolved table reference: run the
DESCRIBE query (`backend table` is the response of `sequelize.queryRaw` on
the generated SQL), throw a plain error when the result set is empty, and
re-kind a backend `ER_NO_SUCH_TABLE` error into the same plain error. -/
def describeTableOnResolved (table : TableRef)
    (backend : TableRef → Except JsError ColumnsDescription) :
    Except JsError ColumnsDescription :=
  let tryBody : Except JsError ColumnsDescription :=
    match backend table with
    | .ok data =>
      if data.isEmpty then .error (.plainError (noDescriptionMessage table))
      else .ok data
    | .error e => .error e
  match tryBody with
  | .ok data => .ok data
  | .error e =>
    if isNoSuchTableError e then .error (.plainError (noDescriptionMessage table))
    else .error e

/-- Shallow embedding of `describeTable` (source lines 121-163).
`tableName` is the table reference already extracted by the query
generator; the returned pair is the call outcome together with the
deprecation warnings emitted while resolving the arguments. -/
def describeTable (tableName : TableRef) (options : DescribeTableOptionsArg)
    (backend : TableRef → Except JsError ColumnsDescription) :
    Except JsError ColumnsDescription × List DeprecationWarning :=
  let resolved := resolveDescribeTableArgs tableName options
  (describeTableOnResolved resolved.1 backend, resolved.2)

/-! ### Theorems for describeTable -/

/-- C2: for every table reference and argument form, `describeTable` fails
with the same error — a plain error carrying the no-description message for
the resolved table — both when the backend returns an empty result set and
when the backend raises a `BaseError` whose cause code is
`ER_NO_SUCH_TABLE`. -/
theorem describeTable_not_found_normalized (tableName : TableRef)
    (options : DescribeTableOptionsArg) :
    (describeTable tableName options (fun _ => .ok [])).1 =
      .error (.plainError
        (noDescriptionMessage (resolveDescribeTableArgs tableName options).1)) ∧
    (describeTable tableName options
        (fun _ => .error (.baseError (some "ER_NO_SUCH_TABLE")))).1 =
      .error (.plainError
        (noDescriptionMessage (resolveDescribeTableArgs tableName options).1)) := by
  constructor <;>
    simp [describeTable, describeTableOnResolved, isNoSuchTableError, List.isEmpty]

/-- C7: each deprecated parameter path emits its deprecation warning and
the call still executes, with legacy semantics: the query runs against the
table reference with the supplied schema (resp. delimiter) overriding the
extracted one, exactly as a call on the overridden reference with no
deprecated parameters would. -/
theorem describeTable_deprecated_paths (tableName : TableRef) (s : String)
    (sch del : String)
    (backend : TableRef → Except JsError ColumnsDescription) :
    describeTable tableName (DescribeTableOptionsArg.legacyString s) backend =
      (describeTableOnResolved { tableName with schema := some s } backend,
        [DeprecationWarning.schemaParameter]) ∧
    (sch ≠ "" →
      describeTable tableName (DescribeTableOptionsArg.opts (some sch) none) backend =
        (describeTableOnResolved { tableName with schema := some sch } backend,
          [DeprecationWarning.schemaParameter])) ∧
    (del ≠ "" →
      describeTable tableName (DescribeTableOptionsArg.opts none (some del)) backend =
        (describeTableOnResolved { tableName with delimiter := some del } backend,
          [DeprecationWarning.schemaDelimiterParameter])) := by
  refine ⟨rfl, fun hs => ?_, fun hd => ?_⟩
  · simp [describeTable, resolveDescribeTableArgs, optionTruthy, noSchemaParameter, hs]
  · simp [describeTable, resolveDescribeTableArgs, optionTruthy,
      noSchemaDelimiterParameter, hd]

/-- Witness for C7 at concrete inputs: both options-object paths with
non-empty values, on a backend returning one column. -/
theorem describeTable_deprecated_paths_witness :
    describeTable { tableName := "users" }
        (DescribeTableOptionsArg.opts (some "app") none)
        (fun _ => .ok [("id", { colType := "INTEGER", allowNull := false, defaultValue := none })]) =
      (describeTableOnResolved { tableName := "users", schema := some "app" }
        (fun _ => .ok [("id", { colType := "INTEGER", allowNull := false, defaultValue := none })]),
        [DeprecationWarning.schemaParameter]) ∧
    describeTable { tableName := "users" }
        (DescribeTableOptionsArg.opts none (some "_"))
        (fun _ => .ok [("id", { colType := "INTEGER", allowNull := false, defaultValue := none })]) =
      (describeTableOnResolved { tableName := "users", delimiter := some "_" }
        (fun _ => .ok [("id", { colType := "INTEGER", allowNull := false, defaultValue := none })]),
        [DeprecationWarning.schemaDelimiterParameter]) :=
  ⟨(describeTable_deprecated_paths { tableName := "users" } "x" "app" "_"
      (fun _ => .ok [("id", { colType := "INTEGER", allowNull := false, defaultValue := none })])).2.1
      (by decide),
   (describeTable_deprecated_paths { tableName := "users" } "x" "app" "_"
      (fun _ => .ok [("id", { colType := "INTEGER", allowNull := false, defaultValue := none })])).2.2
      (by decide)⟩

/-! ### withoutForeignKeyChecks (source lines 186-222)

The scope method is modelled with an explicit event trace (toggle queries,
callback invocation, pool lease and release, ambient-transaction
injection) and an explicit heap of options objects, so that the shallow
copy `options = { ...optionsOrCallback }` of line 199 and the in-place
mutation performed by `setTransactionFromCls` are represented faithfully.
Backend behaviour — the outcome of each toggle query and of the user
callback — is an environment parameter. -/

/-- The fields of a `QueryRawOptions` object this layer reads or writes:
the bound connection, the transaction, and an opaque residue for every
other field.  Connections are identified by numbers. -/
structure FKOptions where
  connection : Option Nat := none
  transaction : Option Nat := none
  extra : Nat := 0
deriving DecidableEq

/-- A heap of options objects: addresses are indices into the list, so JS
object identity and in-place mutation can be expressed.  Spreading an
object (`{ ...o }`) allocates a fresh address with the same value. -/
structure OptionsHeap where
  objs : List FKOptions
deriving DecidableEq

/-- The object stored at address `a`. -/
def OptionsHeap.get (h : OptionsHeap) (a : Nat) : FKOptions :=
  h.objs.getD a {}

/-- The address the next allocation will use. -/
def OptionsHeap.nextAddr (h : OptionsHeap) : Nat :=
  h.objs.length

/-- Allocate a new object holding value `v` (at address `h.nextAddr`). -/
def OptionsHeap.alloc (h : OptionsHeap) (v : FKOptions) : OptionsHeap :=
  ⟨h.objs ++ [v]⟩

/-- Overwrite the object at address `a` with value `v` (in-place mutation). -/
def OptionsHeap.put (h : OptionsHeap) (a : Nat) (v : FKOptions) : OptionsHeap :=
  ⟨h.objs.set a v⟩

/-- Observable events of one `withoutForeignKeyChecks` call, in order. -/
inductive FKEvent where
  /-- the ambient-transaction injection step (`setTransactionFromCls`) ran -/
  | clsInjection
  /-- a connection was leased from the pool by `sequelize.withConnection` -/
  | lease (c : Nat)
  /-- the toggle query (`SET` foreign-key checks to `enable`) was issued on
  connection `c` -/
  | toggleFK (enable : Bool) (c : Nat)
  /-- the user callback was invoked with connection `c` as its argument -/
  | callbackRun (c : Nat)
  /-- the leased connection was returned to the pool -/
  | release (c : Nat)
deriving DecidableEq

/-- Behaviour of the external collaborators during one call: whether the
ambient-transaction mechanism is enabled and what transaction it holds,
which connection the pool supplies, the outcome of each toggle query
(`none` = resolves, `some e` = rejects with `e`) and the outcome of the
user callback. -/
structure FKChecksEnv (T : Type) where
  clsEnabled : Bool
  clsTransaction : Option Nat
  freshConn : Nat
  toggleRes : Bool → Nat → Option JsError
  cbRes : Nat → Except JsError T

/-- Modelled from the spec: `setTransactionFromCls` (model-internals.js,
not under src/) mutates the options object it is given: when no explicit
transaction is present and implicit propagation is enabled, the implicitly
active transaction of the current call chain is injected into the options;
otherwise the options are left unchanged.  This is the value the mutated
object holds afterwards. -/
def setTransactionFromCls (o : FKOptions) (clsEnabled : Bool)
    (clsTransaction : Option Nat) : FKOptions :=
  if o.transaction.isSome then o
  else if clsEnabled then { o with transaction := clsTransaction }
  else o

/-- The value of the `options` local after lines 195-201: a fresh empty
object for the callback-only overload (`callerOpts = none`), the shallow
copy of the object of the caller otherwise. -/
def initialOptions (h : OptionsHeap) (callerOpts : Option Nat) : FKOptions :=
  match callerOpts with
  | none => {}
  | some a => h.get a

/-- Shallow embedding of the private `#withoutForeignKeyChecks` (source
lines 214-222) on a resolved options object whose connection is `c`:
issue the disable toggle, invoke the callback only if it resolved, and in
a `finally` always issue the re-enable toggle — whose rejection, per
JavaScript semantics, replaces the try-block outcome.  Returns the settled
outcome and the event trace. -/
def runWithoutFKChecksInner {T : Type} (env : FKChecksEnv T) (c : Nat) :
    Except JsError T × List FKEvent :=
  let tryOutcome : Except JsError T × List FKEvent :=
    match env.toggleRes false c with
    | some e => (.error e, [FKEvent.toggleFK false c])
    | none => (env.cbRes c, [FKEvent.toggleFK false c, FKEvent.callbackRun c])
  match env.toggleRes true c with
  | some e2 => (.error e2, tryOutcome.2 ++ [FKEvent.toggleFK true c])
  | none => (tryOutcome.1, tryOutcome.2 ++ [FKEvent.toggleFK true c])

/-- Shallow embedding of `withoutForeignKeyChecks` (source lines 186-222).
`callerOpts` is the address of the options object of the caller, or `none` for
the callback-only overload.  Lines 195-201 allocate the shallow copy;
`setTransactionFromCls` then mutates that copy in place; line 205 branches
on the connection field of the copy: if present the scope runs directly on it, else
`sequelize.withConnection` — modelled from the spec (section 4.1 case 3,
not under src/): lease one pooled connection, run the scope on a spread of
the options with that connection, release unconditionally — wraps the
scope.  Returns the settled outcome, the event trace, and the final heap. -/
def withoutForeignKeyChecks {T : Type} (env : FKChecksEnv T) (h : OptionsHeap)
    (callerOpts : Option Nat) :
    (Except JsError T × List FKEvent) × OptionsHeap :=
  let optAddr := h.nextAddr
  let h1 := h.alloc (initialOptions h callerOpts)
  let injected :=
    setTransactionFromCls (initialOptions h callerOpts) env.clsEnabled env.clsTransaction
  let h2 := h1.put optAddr injected
  match injected.connection with
  | some c =>
    ((((runWithoutFKChecksInner env c).1 : Except JsError T),
      FKEvent.clsInjection :: (runWithoutFKChecksInner env c).2), h2)
  | none =>
    let c := env.freshConn
    let h3 := h2.alloc { injected with connection := some c }
    (((runWithoutFKChecksInner env c).1,
      FKEvent.clsInjection :: FKEvent.lease c ::
        ((runWithoutFKChecksInner env c).2 ++ [FKEvent.release c])), h3)

/-- Is this event the re-enable toggle? -/
def isEnableToggle : FKEvent → Bool
  | .toggleFK true _ => true
  | _ => false

/-- Is this event a callback invocation? -/
def isCallbackRun : FKEvent → Bool
  | .callbackRun _ => true
  | _ => false

/-- Is this event a pool lease? -/
def isLease : FKEvent → Bool
  | .lease _ => true
  | _ => false

/-- Is this event a pool release? -/
def isRelease : FKEvent → Bool
  | .release _ => true
  | _ => false

/-- Is this event the ambient-transaction injection? -/
def isClsInjection : FKEvent → Bool
  | .clsInjection => true
  | _ => false

/-- The connection an event happens on, if any. -/
def connOf : FKEvent → Option Nat
  | .clsInjection => none
  | .lease c => some c
  | .toggleFK _ c => some c
  | .callbackRun c => some c
  | .release c => some c

/-! ### unsafeToggleForeignKeyChecks as a state transition (source lines 231-236)

For the idempotence claim the toggle primitive is viewed through the
foreign-key-checks flag of the connection it runs on.  The dialect query
generator and the driver are outside the excerpt, so their composition is
modelled from the spec.  The source method name carries an `unsafe` prefix,
dropped here. -/

/-- The foreign-key-checks flag of one backend connection. -/
structure FKBackendState where
  fkChecksEnabled : Bool
deriving DecidableEq

/-- The statement produced by `getToggleForeignKeyChecksQuery(enable)`:
modelled from the spec (Dialect SQL Generator, not under src/) as carrying
the requested flag value. -/
structure ToggleQuery where
  enable : Bool
deriving DecidableEq

/-- Source line 235: the query generator call. -/
def getToggleForeignKeyChecksQuery (enable : Bool) : ToggleQuery :=
  { enable := enable }

/-- Modelled from the spec: driver execution of the toggle statement on a
connection sets the foreign-key-checks flag of that connection to the requested
value and succeeds. -/
def execToggleQuery (q : ToggleQuery) (_s : FKBackendState) :
    Except JsError FKBackendState :=
  .ok { fkChecksEnabled := q.enable }

/-- Shallow embedding of `unsafeToggleForeignKeyChecks` (source lines
231-236): one `queryRaw` of the generated toggle statement, viewed as a
transition on the foreign-key-checks flag of the connection. -/
def toggleForeignKeyChecks (enable : Bool) (s : FKBackendState) :
    Except JsError FKBackendState :=
  execToggleQuery (getToggleForeignKeyChecksQuery enable) s

/-! ### Trace lemmas for withoutForeignKeyChecks -/

/-- `setTransactionFromCls` only ever writes the transaction field. -/
theorem setTransactionFromCls_connection (o : FKOptions) (b : Bool)
    (t : Option Nat) : (setTransactionFromCls o b t).connection = o.connection := by
  unfold setTransactionFromCls
  split
  · rfl
  · split <;> rfl

/-- Trace of the inner scope when the disable toggle rejects: the callback
is never invoked, but the re-enable toggle still runs. -/
theorem runInner_trace_disableFail {T : Type} (env : FKChecksEnv T) (c : Nat)
    (e : JsError) (hd : env.toggleRes false c = some e) :
    (runWithoutFKChecksInner env c).2 =
      [FKEvent.toggleFK false c, FKEvent.toggleFK true c] := by
  unfold runWithoutFKChecksInner
  rcases he : env.toggleRes true c <;> simp [hd, he]

/-- Trace of the inner scope when the disable toggle resolves: disable,
callback, re-enable, in that order, whatever the callback and the
re-enable toggle do. -/
theorem runInner_trace_disableOk {T : Type} (env : FKChecksEnv T) (c : Nat)
    (hd : env.toggleRes false c = none) :
    (runWithoutFKChecksInner env c).2 =
      [FKEvent.toggleFK false c, FKEvent.callbackRun c, FKEvent.toggleFK true c] := by
  unfold runWithoutFKChecksInner
  rcases he : env.toggleRes true c <;> simp [hd, he]

/-- Settled outcome of the inner scope: a rejecting re-enable toggle
replaces the try-block outcome; otherwise the try-block outcome (disable
error, or the own outcome of the callback) propagates. -/
theorem runInner_result {T : Type} (env : FKChecksEnv T) (c : Nat) :
    (runWithoutFKChecksInner env c).1 =
      match env.toggleRes true c with
      | some e2 => .error e2
      | none =>
        match env.toggleRes false c with
        | some e => .error e
        | none => env.cbRes c := by
  unfold runWithoutFKChecksInner
  rcases he : env.toggleRes true c <;> rcases hd : env.toggleRes false c <;> simp [hd, he]

/-- Outcome and trace of the whole call when the resolved options carry a
connection: the scope runs directly on it, after the injection step. -/
theorem fkc_run_direct {T : Type} (env : FKChecksEnv T) (h : OptionsHeap)
    (co : Option Nat) (c : Nat) (hc : (initialOptions h co).connection = some c) :
    (withoutForeignKeyChecks env h co).1 =
      ((runWithoutFKChecksInner env c).1,
        FKEvent.clsInjection :: (runWithoutFKChecksInner env c).2) := by
  unfold withoutForeignKeyChecks
  simp only [setTransactionFromCls_connection, hc]

/-- Outcome and trace of the whole call when the resolved options carry no
connection: a pooled connection wraps the scope, leased right after the
injection step and released last. -/
theorem fkc_run_pooled {T : Type} (env : FKChecksEnv T) (h : OptionsHeap)
    (co : Option Nat) (hc : (initialOptions h co).connection = none) :
    (withoutForeignKeyChecks env h co).1 =
      ((runWithoutFKChecksInner env env.freshConn).1,
        FKEvent.clsInjection :: FKEvent.lease env.freshConn ::
          ((runWithoutFKChecksInner env env.freshConn).2 ++
            [FKEvent.release env.freshConn])) := by
  unfold withoutForeignKeyChecks
  simp only [setTransactionFromCls_connection, hc]

/-! ### Theorems for withoutForeignKeyChecks -/

/-- C1: on every execution of `withoutForeignKeyChecks` — whatever the
callback, the toggle queries and the connection resolution do — the
re-enable toggle is issued exactly once, and no callback invocation occurs
after it: the callback has settled before the re-enable toggle, which in
turn happens within the call, before its outcome reaches the caller. -/
theorem fkc_reenable_toggle_once {T : Type} (env : FKChecksEnv T)
    (h : OptionsHeap) (co : Option Nat) :
    ((withoutForeignKeyChecks env h co).1.2).countP isEnableToggle = 1 ∧
    ((((withoutForeignKeyChecks env h co).1.2).dropWhile
        (fun e => !isEnableToggle e)).tail).countP isCallbackRun = 0 := by
  rcases hc : (initialOptions h co).connection with _ | c
  · rw [fkc_run_pooled env h co hc]
    rcases hd : env.toggleRes false env.freshConn with _ | e
    · rw [runInner_trace_disableOk env env.freshConn hd]
      exact ⟨rfl, rfl⟩
    · rw [runInner_trace_disableFail env env.freshConn e hd]
      exact ⟨rfl, rfl⟩
  · rw [fkc_run_direct env h co c hc]
    rcases hd : env.toggleRes false c with _ | e
    · rw [runInner_trace_disableOk env c hd]
      exact ⟨rfl, rfl⟩
    · rw [runInner_trace_disableFail env c e hd]
      exact ⟨rfl, rfl⟩

/-- C8: the ambient-transaction injection step is the first event of every
execution — it runs exactly once per call, before the branch between the
connection of the caller and a pooled lease, hence before any lease or toggle. -/
theorem fkc_cls_injection_first {T : Type} (env : FKChecksEnv T)
    (h : OptionsHeap) (co : Option Nat) :
    ((withoutForeignKeyChecks env h co).1.2).head? = some FKEvent.clsInjection ∧
    ((withoutForeignKeyChecks env h co).1.2).countP isClsInjection = 1 := by
  rcases hc : (initialOptions h co).connection with _ | c
  · rw [fkc_run_pooled env h co hc]
    rcases hd : env.toggleRes false env.freshConn with _ | e
    · rw [runInner_trace_disableOk env env.freshConn hd]
      exact ⟨rfl, rfl⟩
    · rw [runInner_trace_disableFail env env.freshConn e hd]
      exact ⟨rfl, rfl⟩
  · rw [fkc_run_direct env h co c hc]
    rcases hd : env.toggleRes false c with _ | e
    · rw [runInner_trace_disableOk env c hd]
      exact ⟨rfl, rfl⟩
    · rw [runInner_trace_disableFail env c e hd]
      exact ⟨rfl, rfl⟩

/-- C3: when the options of the caller carry a connection, no lease or release
happens and every connection-bearing event — both toggles and the callback
invocation — uses that connection; otherwise exactly one lease and exactly
one release happen, on every outcome, and every connection-bearing event
uses the single pooled connection. -/
theorem fkc_connection_resolution {T : Type} (env : FKChecksEnv T)
    (h : OptionsHeap) (co : Option Nat) :
    (∀ c, (initialOptions h co).connection = some c →
      ((withoutForeignKeyChecks env h co).1.2).countP isLease = 0 ∧
      ((withoutForeignKeyChecks env h co).1.2).countP isRelease = 0 ∧
      ∀ e ∈ (withoutForeignKeyChecks env h co).1.2,
        connOf e = none ∨ connOf e = some c) ∧
    ((initialOptions h co).connection = none →
      ((withoutForeignKeyChecks env h co).1.2).countP isLease = 1 ∧
      ((withoutForeignKeyChecks env h co).1.2).countP isRelease = 1 ∧
      ∀ e ∈ (withoutForeignKeyChecks env h co).1.2,
        connOf e = none ∨ connOf e = some env.freshConn) := by
  constructor
  · intro c hc
    rw [fkc_run_direct env h co c hc]
    rcases hd : env.toggleRes false c with _ | e
    · rw [runInner_trace_disableOk env c hd]
      refine ⟨rfl, rfl, ?_⟩
      intro e he
      fin_cases he <;> simp [connOf]
    · rw [runInner_trace_disableFail env c e hd]
      refine ⟨rfl, rfl, ?_⟩
      intro e he
      fin_cases he <;> simp [connOf]
  · intro hc
    rw [fkc_run_pooled env h co hc]
    rcases hd : env.toggleRes false env.freshConn with _ | e
    · rw [runInner_trace_disableOk env env.freshConn hd]
      refine ⟨rfl, rfl, ?_⟩
      intro e he
      fin_cases he <;> simp [connOf]
    · rw [runInner_trace_disableFail env env.freshConn e hd]
      refine ⟨rfl, rfl, ?_⟩
      intro e he
      fin_cases he <;> simp [connOf]

/-- Witness for C3 at concrete inputs: a call whose options carry
connection 3 performs no lease, and a call whose options carry no
connection performs exactly one release. -/
theorem fkc_connection_resolution_witness :
    (((withoutForeignKeyChecks
        ({ clsEnabled := false, clsTransaction := none, freshConn := 5,
           toggleRes := fun _ _ => none,
           cbRes := fun _ => .ok 0 } : FKChecksEnv Nat)
        ⟨[{ connection := some 3 }]⟩ (some 0)).1.2).countP isLease = 0) ∧
    (((withoutForeignKeyChecks
        ({ clsEnabled := false, clsTransaction := none, freshConn := 5,
           toggleRes := fun _ _ => none,
           cbRes := fun _ => .ok 0 } : FKChecksEnv Nat)
        ⟨[]⟩ none).1.2).countP isRelease = 1) :=
  ⟨((fkc_connection_resolution
      ({ clsEnabled := false, clsTransaction := none, freshConn := 5,
         toggleRes := fun _ _ => none,
         cbRes := fun _ => .ok 0 } : FKChecksEnv Nat)
      ⟨[{ connection := some 3 }]⟩ (some 0)).1 3 rfl).1,
   ((fkc_connection_resolution
      ({ clsEnabled := false, clsTransaction := none, freshConn := 5,
         toggleRes := fun _ _ => none,
         cbRes := fun _ => .ok 0 } : FKChecksEnv Nat)
      ⟨[]⟩ none).2 rfl).2.1⟩

/-- C4 as stated is false: the scope body is a plain try/finally, so when
the callback rejects with one error and the re-enable toggle in the
finally block rejects with another, the restoration failure — not the
original callback error — is the error the caller observes, and the
callback error is dropped, not attached. -/
theorem fkc_error_precedence_cex :
    (withoutForeignKeyChecks
        ({ clsEnabled := false, clsTransaction := none, freshConn := 7,
           toggleRes := fun en _ =>
             if en then some (JsError.plainError "restore failed") else none,
           cbRes := fun _ => .error (JsError.plainError "boom") } : FKChecksEnv Nat)
        ⟨[]⟩ none).1.1 = .error (JsError.plainError "restore failed") ∧
    JsError.plainError "restore failed" ≠ JsError.plainError "boom" := by
  constructor
  · rfl
  · decide

/-- C4 amended: whenever the re-enable restoration step fails, its error is
the one surfaced to the caller — when the callback also threw, the callback
error is replaced and dropped rather than given precedence, and when the
callback succeeded the restoration failure likewise replaces the return
value. -/
theorem fkc_restoration_error_surfaced {T : Type} (env : FKChecksEnv T)
    (h : OptionsHeap) (co : Option Nat) (e2 : JsError)
    (henv : ∀ c, env.toggleRes true c = some e2) :
    (withoutForeignKeyChecks env h co).1.1 = .error e2 := by
  rcases hc : (initialOptions h co).connection with _ | c
  · rw [fkc_run_pooled env h co hc, runInner_result, henv env.freshConn]
  · rw [fkc_run_direct env h co c hc, runInner_result, henv c]

/-- Witness for C4 amended: a concrete run with a succeeding callback and a
failing re-enable toggle surfaces the restoration failure. -/
theorem fkc_restoration_error_surfaced_witness :
    (withoutForeignKeyChecks
        ({ clsEnabled := false, clsTransaction := none, freshConn := 7,
           toggleRes := fun en _ =>
             if en then some (JsError.plainError "restore failed") else none,
           cbRes := fun _ => .ok 1 } : FKChecksEnv Nat)
        ⟨[]⟩ none).1.1 = .error (JsError.plainError "restore failed") :=
  fkc_restoration_error_surfaced
    ({ clsEnabled := false, clsTransaction := none, freshConn := 7,
       toggleRes := fun en _ =>
         if en then some (JsError.plainError "restore failed") else none,
       cbRes := fun _ => .ok 1 } : FKChecksEnv Nat)
    ⟨[]⟩ none (JsError.plainError "restore failed") (fun _ => rfl)

/-- C9: issuing the enable toggle twice in succession on the same
connection produces no error and leaves the foreign-key checks enabled,
from any starting state. -/
theorem toggleForeignKeyChecks_idempotent (s : FKBackendState) :
    (toggleForeignKeyChecks true s).bind (fun s1 => toggleForeignKeyChecks true s1) =
      .ok { fkChecksEnabled := true } :=
  rfl

/-! ### Heap lemmas and the no-mutation theorem -/

/-- Allocation leaves every existing object unchanged. -/
theorem OptionsHeap.get_alloc_of_lt (h : OptionsHeap) (v : FKOptions) (a : Nat)
    (ha : a < h.objs.length) : (h.alloc v).get a = h.get a := by
  simp [OptionsHeap.alloc, OptionsHeap.get, List.getD, List.getElem?_append_left ha]

/-- Overwriting one object leaves every other object unchanged. -/
theorem OptionsHeap.get_put_of_ne (h : OptionsHeap) (b : Nat) (v : FKOptions)
    (a : Nat) (hab : a ≠ b) : (h.put b v).get a = h.get a := by
  simp [OptionsHeap.put, OptionsHeap.get, List.getD,
    List.getElem?_set_ne (Ne.symm hab)]

/-- Allocation grows the heap by one object. -/
theorem OptionsHeap.length_alloc (h : OptionsHeap) (v : FKOptions) :
    (h.alloc v).objs.length = h.objs.length + 1 := by
  simp [OptionsHeap.alloc]

/-- Overwriting keeps the heap size. -/
theorem OptionsHeap.length_put (h : OptionsHeap) (b : Nat) (v : FKOptions) :
    (h.put b v).objs.length = h.objs.length := by
  simp [OptionsHeap.put]

/-- C10: the options object of the caller is never mutated — the method
operates on a shallow copy, so after the call the object at the
address holds exactly the value it held before, on both connection
branches; the ambient-transaction injection and the added pooled
connection are visible only in the internally allocated copies. -/
theorem fkc_caller_options_unchanged {T : Type} (env : FKChecksEnv T)
    (h : OptionsHeap) (a : Nat) (ha : a < h.objs.length) :
    ((withoutForeignKeyChecks env h (some a)).2).get a = h.get a := by
  have hne : a ≠ h.nextAddr := by
    unfold OptionsHeap.nextAddr
    omega
  have hmid :
      ((h.alloc (initialOptions h (some a))).put h.nextAddr
          (setTransactionFromCls (initialOptions h (some a)) env.clsEnabled
            env.clsTransaction)).get a = h.get a := by
    rw [OptionsHeap.get_put_of_ne _ _ _ _ hne,
      OptionsHeap.get_alloc_of_lt _ _ _ ha]
  have hmidlen :
      ((h.alloc (initialOptions h (some a))).put h.nextAddr
          (setTransactionFromCls (initialOptions h (some a)) env.clsEnabled
            env.clsTransaction)).objs.length = h.objs.length + 1 := by
    rw [OptionsHeap.length_put, OptionsHeap.length_alloc]
  unfold withoutForeignKeyChecks
  rcases hscrut : (setTransactionFromCls (initialOptions h (some a))
      env.clsEnabled env.clsTransaction).connection with _ | c
  · simp only [hscrut]
    rw [OptionsHeap.get_alloc_of_lt]
    · exact hmid
    · omega
  · simp only [hscrut]
    exact hmid

/-- Witness for C10 at a concrete heap: the caller object at address 0
holds the same value after the call as before. -/
theorem fkc_caller_options_unchanged_witness :
    ((withoutForeignKeyChecks
        ({ clsEnabled := true, clsTransaction := some 9, freshConn := 5,
           toggleRes := fun _ _ => none,
           cbRes := fun _ => .ok 0 } : FKChecksEnv Nat)
        ⟨[{ connection := some 3 }]⟩ (some 0)).2).get 0 =
      OptionsHeap.get ⟨[{ connection := some 3 }]⟩ 0 :=
  fkc_caller_options_unchanged
    ({ clsEnabled := true, clsTransaction := some 9, freshConn := 5,
       toggleRes := fun _ _ => none,
       cbRes := fun _ => .ok 0 } : FKChecksEnv Nat)
    ⟨[{ connection := some 3 }]⟩ 0 (by decide)

end Sequelize
